import Mathlib

/-!
Verification of the TCC_QD composite-section calculator (EN 1995-1-1 Annex B
gamma method).  The pure numerical pipeline of `TCC_EC5_calc.py` is embedded
over the rationals (ideal arithmetic); the one formula that mentions π
(`compute_gamma_concrete`) is embedded over the reals.  The inline
re-implementations inside the dashboard `TCC_app.py` are embedded separately
under `app_` names so that the two code paths can be compared.
-/

namespace TCC

/-- `compute_section_properties` from TCC_EC5_calc.py: rectangular-section
area and second moment of area for the timber and the concrete member.
Returns `(A_timber, I_timber, A_concrete, I_concrete)`. -/
def compute_section_properties (b_timber h_timber b_concrete h_concrete : ℚ) :
    ℚ × ℚ × ℚ × ℚ :=
  let A_timber := b_timber * h_timber
  let A_concrete := b_concrete * h_concrete
  let I_timber := (b_timber * (h_timber ^ 3)) / 12
  let I_concrete := (b_concrete * (h_concrete ^ 3)) / 12
  (A_timber, I_timber, A_concrete, I_concrete)

/-- `compute_gamma_concrete` from TCC_EC5_calc.py: the Annex B connection
efficiency factor.  Uses `np.pi`, hence embedded over ℝ. -/
noncomputable def compute_gamma_concrete (E_concrete A_concrete s k_ser L : ℝ) : ℝ :=
  1 / (1 + (Real.pi ^ 2 * E_concrete * A_concrete * s) / (k_ser * (L ^ 2)))

/-- `compute_neutral_axes` from TCC_EC5_calc.py: distances from the timber
and concrete centroids to the composite neutral axis.  The factor 2
multiplies the entire denominator sum. -/
def compute_neutral_axes (E_timber A_timber E_concrete A_concrete
    h_timber h_concrete gamma_concrete : ℚ) : ℚ × ℚ :=
  let numerator := gamma_concrete * E_concrete * A_concrete * (h_concrete + h_timber)
  let denominator := 2 * ((gamma_concrete * E_concrete * A_concrete) + (E_timber * A_timber))
  let a_timber := numerator / denominator
  let a_concrete := (h_timber / 2) - a_timber + (h_concrete / 2)
  (a_timber, a_concrete)

/-- `compute_effective_bending_stiffness` from TCC_EC5_calc.py: the gamma
method effective bending stiffness. -/
def compute_effective_bending_stiffness (E_timber I_timber A_timber a_timber
    E_concrete I_concrete A_concrete a_concrete gamma_concrete : ℚ) : ℚ :=
  let part_timber := E_timber * I_timber + E_timber * A_timber * (a_timber ^ 2)
  let part_concrete :=
    E_concrete * I_concrete + gamma_concrete * E_concrete * A_concrete * (a_concrete ^ 2)
  part_timber + part_concrete

/-- `compute_bending_moment_and_shear` from TCC_EC5_calc.py:
`(M_mid, V_max) = (P*L/4, P/2)` for a mid-span point load. -/
def compute_bending_moment_and_shear (P L : ℚ) : ℚ × ℚ :=
  ((P * L) / 4, P / 2)

/-- `np.linspace start stop num` (with endpoint): `num` evenly spaced samples
from `start` to `stop`; a single sample is `start` alone. -/
def linspace (start stop : ℚ) (num : ℕ) : List ℚ :=
  if num = 0 then []
  else if num = 1 then [start]
  else (List.range num).map (fun i : ℕ => start + (i : ℚ) * (stop - start) / ((num : ℚ) - 1))

/-- The left-half deflection expression used by `compute_deflection`:
`(P*x^3/12 - P*L^2*x/16) / EI_eff`. -/
def deflection_expr (P L EI_eff x : ℚ) : ℚ :=
  (P * x ^ 3 / 12 - P * L ^ 2 * x / 16) / EI_eff

/-- `compute_deflection` from TCC_EC5_calc.py: samples the left-half
deflection expression on `linspace 0 (L/2)` and mirrors the value list for
the right half.  Returns `(x_left, delta_left, x_right, delta_right)`. -/
def compute_deflection (EI_eff P L : ℚ) (num_points : ℕ) :
    List ℚ × List ℚ × List ℚ × List ℚ :=
  let x_left := linspace 0 (L / 2) num_points
  let delta_left := x_left.map (deflection_expr P L EI_eff)
  let x_right := linspace (L / 2) L num_points
  let delta_right := delta_left.reverse
  (x_left, delta_left, x_right, delta_right)

/-- The labeled result bundle returned by `compute_stresses_and_forces`. -/
structure StressResults where
  sigma_timber : ℚ
  sigma_m_timber : ℚ
  utilisation_timber : ℚ
  sigma_concrete : ℚ
  sigma_m_concrete : ℚ
  N_concrete : ℚ
  M_concrete : ℚ
  tau_timber_max : ℚ
  F_connector : ℚ
  h_EC_tau : ℚ

/-- `compute_stresses_and_forces` from TCC_EC5_calc.py: the stresses and
internal forces in both materials, timber shear, and connector force. -/
def compute_stresses_and_forces (E_timber A_timber h_timber f_m_timber f_t_timber
    E_concrete A_concrete h_concrete I_concrete M_mid V_max
    a_timber a_concrete s EI_eff gamma_concrete : ℚ) : StressResults :=
  let sigma_timber := (E_timber * a_timber * M_mid) / EI_eff
  let sigma_m_timber := (1/2 * E_timber * h_timber * M_mid) / EI_eff
  let utilisation_timber := (sigma_m_timber / f_m_timber) + (sigma_timber / f_t_timber)
  let sigma_concrete := (gamma_concrete * E_concrete * a_concrete * M_mid) / EI_eff
  let sigma_m_concrete := (1/2 * E_concrete * h_concrete * M_mid) / EI_eff
  let N_concrete := sigma_concrete * A_concrete
  let M_concrete := (E_concrete * I_concrete * M_mid) / EI_eff
  let h_EC_tau := a_timber + 1/2 * h_timber
  let tau_timber_max := (1/2 * E_timber * (h_EC_tau ^ 2) * V_max) / EI_eff
  let F_connector :=
    (gamma_concrete * E_concrete * A_concrete * a_concrete * s / EI_eff) * V_max
  ⟨sigma_timber, sigma_m_timber, utilisation_timber, sigma_concrete,
   sigma_m_concrete, N_concrete, M_concrete, tau_timber_max, F_connector, h_EC_tau⟩

/-- Inline `a_timber` from TCC_app.py line 59: the factor 2 multiplies only
the first denominator term. -/
def app_a_timber (gamma_concrete E_concrete A_concrete E_timber A_timber
    h_timber h_concrete : ℚ) : ℚ :=
  (gamma_concrete * E_concrete * A_concrete * (h_concrete + h_timber)) /
    (2 * (gamma_concrete * E_concrete * A_concrete) + (E_timber * A_timber))

/-- Inline `M_mid` from TCC_app.py line 52: `(P*L)/4`. -/
def app_M_mid (P L : ℚ) : ℚ := (P * L) / 4

/-- Inline `V_max` from TCC_app.py line 53: `P*L/2`. -/
def app_V_max (P L : ℚ) : ℚ := P * L / 2

/-- Inline `sigma_concrete` from TCC_app.py line 127: uses `E_timber` and
`a_timber` in place of the concrete quantities. -/
def app_sigma_concrete (gamma_concrete E_timber a_timber M_mid EI_eff : ℚ) : ℚ :=
  (gamma_concrete * E_timber * a_timber * M_mid) / EI_eff

/-- Inline `sigma_m_concrete` from TCC_app.py line 128: uses `E_timber` and
`h_timber` in place of the concrete quantities. -/
def app_sigma_m_concrete (E_timber h_timber M_mid EI_eff : ℚ) : ℚ :=
  (1/2 * E_timber * h_timber * M_mid) / EI_eff

/-- The exact textbook left-half deflection of a simply supported beam under
a mid-span point load, `-P*x*(3*L^2 - 4*x^2)/(48*EI_eff)` (spec-side
comparison definition for the refinement claim C10). -/
def textbook_deflection (P L EI_eff x : ℚ) : ℚ :=
  -P * x * (3 * L ^ 2 - 4 * x ^ 2) / (48 * EI_eff)

/-- Helper: for strictly positive inputs the Annex B gamma factor lies
strictly between 0 and 1. -/
lemma gamma_mem_Ioo (E_concrete A_concrete s k_ser L : ℝ)
    (hE : 0 < E_concrete) (hA : 0 < A_concrete) (hs : 0 < s)
    (hk : 0 < k_ser) (hL : 0 < L) :
    0 < compute_gamma_concrete E_concrete A_concrete s k_ser L ∧
      compute_gamma_concrete E_concrete A_concrete s k_ser L < 1 := by
  have hpi : (0 : ℝ) < Real.pi ^ 2 := pow_pos Real.pi_pos 2
  have ht : 0 < (Real.pi ^ 2 * E_concrete * A_concrete * s) / (k_ser * (L ^ 2)) := by
    apply div_pos
    · exact mul_pos (mul_pos (mul_pos hpi hE) hA) hs
    · exact mul_pos hk (pow_pos hL 2)
  constructor
  · exact div_pos one_pos (by linarith)
  · rw [compute_gamma_concrete, div_lt_one (by linarith)]
    linarith

/-- C1: the claim says both the library `compute_neutral_axes` and the app's
inline computation use the denominator `2*(gamma*E_c*A_c + E_t*A_t)`.  The
library does, but the app's inline denominator is
`2*(gamma*E_c*A_c) + E_t*A_t`: at the all-ones input the app yields `2/3`
while the claimed (and library) value is `1/2`. -/
theorem C1_app_neutral_axis_divergence :
    (compute_neutral_axes 1 1 1 1 1 1 1).1 = 1 / 2 ∧
      app_a_timber 1 1 1 1 1 1 1 = 2 / 3 ∧
      app_a_timber 1 1 1 1 1 1 1 ≠ (compute_neutral_axes 1 1 1 1 1 1 1).1 := by
  refine ⟨?_, ?_, ?_⟩ <;> norm_num [compute_neutral_axes, app_a_timber]

/-- C2: the claim says both the library and the app return `V_max = P/2`.
The library does (`compute_bending_moment_and_shear 4 2 = (2, 2)`), but the
app's inline `V_max = P*L/2` yields `4` at `P = 4`, `L = 2`, not `P/2 = 2`. -/
theorem C2_app_shear_divergence :
    compute_bending_moment_and_shear 4 2 = (2, 2) ∧
      app_M_mid 4 2 = 2 ∧
      app_V_max 4 2 = 4 ∧
      app_V_max 4 2 ≠ (4 : ℚ) / 2 := by
  refine ⟨?_, ?_, ?_, ?_⟩ <;>
    norm_num [compute_bending_moment_and_shear, app_M_mid, app_V_max, Prod.ext_iff]

/-- C3: `compute_effective_bending_stiffness` returns exactly
`E_t*I_t + E_c*I_c + E_t*A_t*a_t^2 + gamma*E_c*A_c*a_c^2`, and for
`gamma in (0,1]` and strictly positive moduli, inertias, areas and offsets it
strictly exceeds `E_t*I_t + E_c*I_c`. -/
theorem C3_effective_stiffness_exceeds_bare_sum
    (E_timber I_timber A_timber a_timber E_concrete I_concrete A_concrete
      a_concrete gamma_concrete : ℚ) :
    compute_effective_bending_stiffness E_timber I_timber A_timber a_timber
        E_concrete I_concrete A_concrete a_concrete gamma_concrete =
      E_timber * I_timber + E_concrete * I_concrete +
        E_timber * A_timber * a_timber ^ 2 +
        gamma_concrete * E_concrete * A_concrete * a_concrete ^ 2 ∧
    (0 < gamma_concrete → gamma_concrete ≤ 1 →
      0 < E_timber → 0 < I_timber → 0 < A_timber → 0 < a_timber →
      0 < E_concrete → 0 < I_concrete → 0 < A_concrete → 0 < a_concrete →
      E_timber * I_timber + E_concrete * I_concrete <
        compute_effective_bending_stiffness E_timber I_timber A_timber a_timber
          E_concrete I_concrete A_concrete a_concrete gamma_concrete) := by
  constructor
  · simp only [compute_effective_bending_stiffness]
    ring
  · intro hg0 _ hEt _ hAt hat hEc _ hAc hac
    have h1 : 0 < E_timber * A_timber * a_timber ^ 2 := by positivity
    have h2 : 0 < gamma_concrete * E_concrete * A_concrete * a_concrete ^ 2 := by
      positivity
    simp only [compute_effective_bending_stiffness]
    nlinarith

/-- Witness for C3 at the all-ones input: `EI_eff = 4` and `2 < 4`. -/
theorem C3_witness :
    compute_effective_bending_stiffness 1 1 1 1 1 1 1 1 1 =
        1 * 1 + 1 * 1 + 1 * 1 * 1 ^ 2 + 1 * 1 * 1 * 1 ^ 2 ∧
      1 * 1 + 1 * 1 < compute_effective_bending_stiffness 1 1 1 1 1 1 1 1 1 :=
  ⟨(C3_effective_stiffness_exceeds_bare_sum 1 1 1 1 1 1 1 1 1).1,
    (C3_effective_stiffness_exceeds_bare_sum 1 1 1 1 1 1 1 1 1).2
      one_pos le_rfl one_pos one_pos one_pos one_pos one_pos one_pos one_pos one_pos⟩

/-- C4: `compute_gamma_concrete` returns exactly
`1 / (1 + pi^2*E_c*A_c*s / (k_ser*L^2))`, and for strictly positive inputs
the value lies in `(0, 1]`. -/
theorem C4_gamma_formula_and_range (E_concrete A_concrete s k_ser L : ℝ)
    (hE : 0 < E_concrete) (hA : 0 < A_concrete) (hs : 0 < s)
    (hk : 0 < k_ser) (hL : 0 < L) :
    compute_gamma_concrete E_concrete A_concrete s k_ser L =
        1 / (1 + Real.pi ^ 2 * E_concrete * A_concrete * s / (k_ser * L ^ 2)) ∧
      0 < compute_gamma_concrete E_concrete A_concrete s k_ser L ∧
      compute_gamma_concrete E_concrete A_concrete s k_ser L ≤ 1 := by
  obtain ⟨h0, h1⟩ := gamma_mem_Ioo E_concrete A_concrete s k_ser L hE hA hs hk hL
  exact ⟨rfl, h0, le_of_lt h1⟩

/-- Witness for C4 at the all-ones input. -/
theorem C4_witness :
    compute_gamma_concrete 1 1 1 1 1 =
        1 / (1 + Real.pi ^ 2 * 1 * 1 * 1 / (1 * 1 ^ 2)) ∧
      0 < compute_gamma_concrete 1 1 1 1 1 ∧
      compute_gamma_concrete 1 1 1 1 1 ≤ 1 :=
  C4_gamma_formula_and_range 1 1 1 1 1 one_pos one_pos one_pos one_pos one_pos

/-- C5: the claim says non-positive inputs are rejected with a domain error
before any computation runs.  The code performs no validation at all: at
`h_timber = 0` (other inputs positive) `compute_section_properties` runs and
returns the degenerate result `(0, 0, 0.04, 1/30000)` instead of rejecting. -/
theorem C5_no_input_validation :
    compute_section_properties 0.12 0 0.4 0.1 = (0, 0, 0.04, 1 / 30000) := by
  norm_num [compute_section_properties, Prod.ext_iff]

/-- C9: the two offsets returned by `compute_neutral_axes` always satisfy
`a_timber + a_concrete = (h_timber + h_concrete)/2`, for every input. -/
theorem C9_offsets_sum_to_half_depth (E_timber A_timber E_concrete A_concrete
    h_timber h_concrete gamma_concrete : ℚ) :
    (compute_neutral_axes E_timber A_timber E_concrete A_concrete
          h_timber h_concrete gamma_concrete).1 +
        (compute_neutral_axes E_timber A_timber E_concrete A_concrete
          h_timber h_concrete gamma_concrete).2 =
      (h_timber + h_concrete) / 2 := by
  simp only [compute_neutral_axes]
  ring

/-- C10: the deflection expression `(P*x^3/12 - P*L^2*x/16)/EI_eff` equals
the textbook form `-P*x*(3*L^2-4*x^2)/(48*EI_eff)` for every `x`; it
vanishes at the support `x = 0`; its mid-span value is exactly
`-P*L^3/(48*EI_eff)`, negative whenever `P, L > 0`. -/
theorem C10_deflection_matches_textbook (EI_eff P L x : ℚ) (hEI : 0 < EI_eff) :
    deflection_expr P L EI_eff x = textbook_deflection P L EI_eff x ∧
      deflection_expr P L EI_eff 0 = 0 ∧
      deflection_expr P L EI_eff (L / 2) = -(P * L ^ 3) / (48 * EI_eff) ∧
      (0 < P → 0 < L → deflection_expr P L EI_eff (L / 2) < 0) := by
  have hEI0 : EI_eff ≠ 0 := ne_of_gt hEI
  have hmid : deflection_expr P L EI_eff (L / 2) = -(P * L ^ 3) / (48 * EI_eff) := by
    simp only [deflection_expr]
    field_simp
    ring
  refine ⟨?_, ?_, hmid, ?_⟩
  · simp only [deflection_expr, textbook_deflection]
    field_simp
    ring
  · simp [deflection_expr]
  · intro hP hL
    rw [hmid, neg_div]
    have : 0 < P * L ^ 3 / (48 * EI_eff) := by positivity
    linarith

/-- Witness for C10 at `EI_eff = 1`, `P = 1`, `L = 1`, `x = 1`. -/
theorem C10_witness :
    deflection_expr 1 1 1 1 = textbook_deflection 1 1 1 1 ∧
      deflection_expr 1 1 1 0 = 0 ∧
      deflection_expr 1 1 1 (1 / 2) = -(1 * 1 ^ 3) / (48 * 1) ∧
      deflection_expr 1 1 1 (1 / 2) < 0 :=
  ⟨(C10_deflection_matches_textbook 1 1 1 1 one_pos).1,
    (C10_deflection_matches_textbook 1 1 1 1 one_pos).2.1,
    (C10_deflection_matches_textbook 1 1 1 1 one_pos).2.2.1,
    (C10_deflection_matches_textbook 1 1 1 1 one_pos).2.2.2 one_pos one_pos⟩

/-- C6: the claim says both code paths compute
`sigma_concrete = gamma*E_c*a_c*M/EI` and `sigma_m_concrete = 0.5*E_c*h_c*M/EI`.
The library does (values `2` and `2` below), but the app's inline lines use
the timber modulus, offset and height: with `gamma = a_t = a_c = M = EI = 1`,
`E_t = 1`, `E_c = 2`, `h_t = 1`, `h_c = 2` the app returns `1` and `1/2`
where the claimed formulas give `2` and `2`. -/
theorem C6_app_concrete_stress_divergence :
    (compute_stresses_and_forces 1 1 1 1 1 2 1 2 1 1 1 1 1 1 1 1).sigma_concrete = 2 ∧
      (compute_stresses_and_forces 1 1 1 1 1 2 1 2 1 1 1 1 1 1 1 1).sigma_m_concrete = 2 ∧
      app_sigma_concrete 1 1 1 1 1 = 1 ∧
      app_sigma_concrete 1 1 1 1 1 ≠ 2 ∧
      app_sigma_m_concrete 1 1 1 1 = 1 / 2 ∧
      app_sigma_m_concrete 1 1 1 1 ≠ 2 := by
  refine ⟨?_, ?_, ?_, ?_, ?_, ?_⟩ <;>
    norm_num [compute_stresses_and_forces, app_sigma_concrete, app_sigma_m_concrete]

/-- C8: the concrete example scenario of the spec: section properties,
`gamma_concrete` strictly between 0 and 1, and the library load effects
`M_mid = 32000`, `V_max = 40000` (SI units). -/
theorem C8_example_scenario :
    (compute_section_properties 0.12 0.16 0.4 0.1).1 = 0.0192 ∧
      (compute_section_properties 0.12 0.16 0.4 0.1).2.1 = 4.096e-5 ∧
      (compute_section_properties 0.12 0.16 0.4 0.1).2.2.1 = 0.04 ∧
      |(compute_section_properties 0.12 0.16 0.4 0.1).2.2.2 - 3.333e-5| < 1e-8 ∧
      0 < compute_gamma_concrete 33e9 0.04 0.8 9e7 1.6 ∧
      compute_gamma_concrete 33e9 0.04 0.8 9e7 1.6 < 1 ∧
      compute_bending_moment_and_shear 8e4 1.6 = (32000, 40000) := by
  obtain ⟨h0, h1⟩ := gamma_mem_Ioo 33e9 0.04 0.8 9e7 1.6
    (by norm_num) (by norm_num) (by norm_num) (by norm_num) (by norm_num)
  refine ⟨?_, ?_, ?_, ?_, h0, h1, ?_⟩ <;>
    norm_num [compute_section_properties, compute_bending_moment_and_shear,
      Prod.ext_iff, abs_lt]

/-- Helper: `linspace` always yields `num` samples. -/
lemma linspace_length (a b : ℚ) (n : ℕ) : (linspace a b n).length = n := by
  by_cases h0 : n = 0
  · simp [linspace, h0]
  · by_cases h1 : n = 1
    · simp [linspace, h0, h1]
    · simp [linspace, h0, h1]

/-- Helper: for at least two samples, the `i`-th sample of `linspace` is
`a + i*(b-a)/(n-1)`. -/
lemma linspace_getD (a b : ℚ) (n i : ℕ) (hn : 2 ≤ n) (hi : i < n) :
    (linspace a b n).getD i 0 = a + i * (b - a) / ((n : ℚ) - 1) := by
  have h0 : n ≠ 0 := by omega
  have h1 : n ≠ 1 := by omega
  have hlen : i < (linspace a b n).length := by rw [linspace_length]; exact hi
  rw [List.getD_eq_getElem _ _ hlen]
  simp only [linspace, h0, h1, if_false]
  rw [List.getElem_map, List.getElem_range]

/-- Helper: reading a mapped list at an in-range index applies the function
to the entry. -/
lemma map_getD (l : List ℚ) (g : ℚ → ℚ) (i : ℕ) (h : i < l.length) :
    (l.map g).getD i 0 = g (l.getD i 0) := by
  have h2 : i < (l.map g).length := by simpa using h
  rw [List.getD_eq_getElem _ _ h2, List.getD_eq_getElem _ _ h, List.getElem_map]

/-- Helper: reading a reversed list at `i` reads the original at
`length - 1 - i`. -/
lemma reverse_getD (l : List ℚ) (i : ℕ) (h : i < l.length) :
    l.reverse.getD i 0 = l.getD (l.length - 1 - i) 0 := by
  have h2 : i < l.reverse.length := by simpa using h
  have h3 : l.length - 1 - i < l.length := by omega
  rw [List.getD_eq_getElem _ _ h2, List.getD_eq_getElem _ _ h3]
  rw [List.getElem_reverse]

/-- Helper: `compute_deflection` written as an explicit tuple. -/
lemma compute_deflection_eq (EI_eff P L : ℚ) (n : ℕ) :
    compute_deflection EI_eff P L n =
      (linspace 0 (L / 2) n,
       (linspace 0 (L / 2) n).map (deflection_expr P L EI_eff),
       linspace (L / 2) L n,
       ((linspace 0 (L / 2) n).map (deflection_expr P L EI_eff)).reverse) := rfl

/-- C7 (counterexample): with a single sample per half-span the claim fails:
at `EI_eff = 1`, `P = 48`, `L = 2`, `num_points = 1` the right-half value
paired with `x_right[0] = 1` is `0` (the support deflection), while the
deflection expression at `L - x_right[0] = 1` is `-8`. -/
theorem C7_counterexample :
    ¬ (((compute_deflection 1 48 2 1).2.2.2).getD 0 0 =
        deflection_expr 48 2 1 (2 - ((compute_deflection 1 48 2 1).2.2.1).getD 0 0)) := by
  norm_num [compute_deflection_eq, linspace, deflection_expr]

/-- C7 (amended): for every `EI_eff > 0`, `P`, `L > 0` and at least two
samples per half-span, the right-half deflection value paired with
`x_right[i]` equals the deflection expression evaluated at the reflected
position `L - x_right[i]`, for every index `i`. -/
theorem C7_deflection_right_half_symmetry (EI_eff P L : ℚ) (n : ℕ)
    (hEI : 0 < EI_eff) (hL : 0 < L) (hn : 2 ≤ n) (i : ℕ) (hi : i < n) :
    ((compute_deflection EI_eff P L n).2.2.2).getD i 0 =
      deflection_expr P L EI_eff
        (L - ((compute_deflection EI_eff P L n).2.2.1).getD i 0) := by
  rw [compute_deflection_eq]
  dsimp only
  have hmaplen : ((linspace 0 (L / 2) n).map (deflection_expr P L EI_eff)).length = n := by
    rw [List.length_map, linspace_length]
  have hj : n - 1 - i < n := by omega
  rw [reverse_getD _ _ (by rw [hmaplen]; exact hi), hmaplen]
  rw [map_getD _ _ _ (by rw [linspace_length]; exact hj)]
  rw [linspace_getD _ _ n _ hn hj, linspace_getD _ _ n i hn hi]
  congr 1
  have hcast : ((n - 1 - i : ℕ) : ℚ) = (n : ℚ) - 1 - i := by
    rw [Nat.cast_sub (by omega), Nat.cast_sub (by omega), Nat.cast_one]
  rw [hcast]
  have h2 : (2 : ℚ) ≤ (n : ℚ) := by exact_mod_cast hn
  have hne : ((n : ℚ) - 1) ≠ 0 := by
    intro h
    nlinarith
  field_simp
  ring

/-- Witness for the amended C7 at `EI_eff = 1`, `P = 48`, `L = 2`, two
samples, index 0. -/
theorem C7_witness :
    ((compute_deflection 1 48 2 2).2.2.2).getD 0 0 =
      deflection_expr 48 2 1 (2 - ((compute_deflection 1 48 2 2).2.2.1).getD 0 0) :=
  C7_deflection_right_half_symmetry 1 48 2 2 one_pos (by norm_num) (by norm_num) 0
    (by norm_num)

end TCC
